import Mathlib

/-!
Verification development for the traffic_duck ETL pipeline.

The Python sources are shallowly embedded:
* `extract_traffic.parse_traffic_response_to_dataframe` over a model of the
  XML element tree it inspects;
* `extract_weather.parse_weather_response_to_dataframe` over a model of the
  JSON object it inspects;
* `traffic_transform.transform_traffic_data` over a model of pandas
  DataFrames as column lists plus association-list rows;
* `load_duckdb.load_transformed_data_to_duckdb` over a store modelled as an
  association list from table names to tables.

Numbers are rationals (the claims under scrutiny involve only exact decimal
arithmetic); a Python `None` or pandas `NaN` in a numeric position is
`Option.none`.
-/

namespace TrafficDuck

/-! ## A model of Python float coercion

`pyFloat` models `float(s)` on ASCII text: surrounding whitespace is
stripped; an optional sign is followed either by a case-insensitive `inf`,
`infinity` or `nan`, or by a decimal literal — digit groups that may use
single underscores between digits, an optional fractional part and an
optional scientific exponent.  It returns `none` exactly where Python
raises `ValueError`.  Finite values are exact rationals; the infinities
and `nan` are the remaining float constants. -/

inductive PyFloat
  | finite (q : ℚ)
  | inf
  | neginf
  | nan
deriving DecidableEq

def digitsToNat (cs : List Char) : ℕ :=
  cs.foldl (fun n c => n * 10 + (c.toNat - 48)) 0

def stripWs (cs : List Char) : List Char :=
  ((cs.dropWhile Char.isWhitespace).reverse.dropWhile Char.isWhitespace).reverse

/-- No two consecutive underscores. -/
def noDoubleUnderscore : List Char → Bool
  | [] => true
  | [_] => true
  | a :: b :: rest => !(a == '_' && b == '_') && noDoubleUnderscore (b :: rest)

def isDigitOrUnderscore (c : Char) : Bool := c.isDigit || c == '_'

/-- A nonempty digit group: digits with single underscores strictly between
digits, Python's rule for numeric literals accepted by `float`. -/
def validDigitsU (cs : List Char) : Bool :=
  !cs.isEmpty && cs.all isDigitOrUnderscore &&
    (cs.headD '_').isDigit && (cs.getLastD '_').isDigit && noDoubleUnderscore cs

/-- The numeric value of a digit group, underscores removed. -/
def digitsVal (cs : List Char) : ℕ := digitsToNat (cs.filter Char.isDigit)

def signSplit (cs : List Char) : ℤ × List Char :=
  match cs with
  | '-' :: r => (-1, r)
  | '+' :: r => (1, r)
  | r => (1, r)

/-- The mantissa: `digits`, `digits.`, `.digits` or `digits.digits`. -/
def parseMantissa (cs : List Char) : Option ℚ :=
  let ip := cs.takeWhile (fun c => c ≠ '.')
  match cs.dropWhile (fun c => c ≠ '.') with
  | [] => if validDigitsU ip then some (digitsVal ip) else none
  | '.' :: fd =>
      if ip.isEmpty && fd.isEmpty then none
      else if (ip.isEmpty || validDigitsU ip) && (fd.isEmpty || validDigitsU fd) then
        some ((digitsVal ip : ℚ) +
          (digitsVal fd : ℚ) / (10 : ℚ) ^ (fd.filter Char.isDigit).length)
      else none
  | _ => none

def lowerList (cs : List Char) : List Char := cs.map Char.toLower

/-- Split at the first `e`/`E`, the exponent marker. -/
def splitExponent (cs : List Char) : List Char × Option (List Char) :=
  let mant := cs.takeWhile (fun c => !(c == 'e' || c == 'E'))
  match cs.dropWhile (fun c => !(c == 'e' || c == 'E')) with
  | [] => (mant, none)
  | _ :: ex => (mant, some ex)

def pyFloat (s : String) : Option PyFloat :=
  let sg := signSplit (stripWs s.data)
  let body := sg.2
  let low := lowerList body
  if low = ['i', 'n', 'f'] ∨ low = ['i', 'n', 'f', 'i', 'n', 'i', 't', 'y'] then
    some (if sg.1 = 1 then .inf else .neginf)
  else if low = ['n', 'a', 'n'] then some .nan
  else
    let se := splitExponent body
    match parseMantissa se.1 with
    | none => none
    | some m =>
        match se.2 with
        | none => some (.finite ((sg.1 : ℚ) * m))
        | some ex =>
            let es := signSplit ex
            if validDigitsU es.2 then
              some (.finite ((sg.1 : ℚ) * m * (10 : ℚ) ^ (es.1 * (digitsVal es.2 : ℤ))))
            else none

/-! ## Model of the traffic XML document

`parse_traffic_response_to_dataframe` only inspects: the seven scalar tags
found directly under the root, the `coordinates` child, and under it the
`coordinate` children with their `latitude` / `longitude` children.  An
absent element is `none`; a present element carries its text (ElementTree
text `None` behaves like the empty string under Python truthiness, so it is
modelled by `some ""`).
-/

structure CoordEntry where
  latitude : Option String
  longitude : Option String
deriving DecidableEq

structure TrafficXml where
  frc : Option String
  currentSpeed : Option String
  freeFlowSpeed : Option String
  currentTravelTime : Option String
  freeFlowTravelTime : Option String
  confidence : Option String
  roadClosure : Option String
  hasCoordinates : Bool
  coordEntries : List CoordEntry
deriving DecidableEq

structure TrafficRecord where
  frc : Option String
  currentSpeed : Option ℚ
  freeFlowSpeed : Option ℚ
  currentTravelTime : Option ℚ
  freeFlowTravelTime : Option ℚ
  confidence : Option ℚ
  roadClosure : Bool
  coordinate_count : ℕ
  coordinates : List (PyFloat × PyFloat)
deriving DecidableEq

/-- Model of `pd.to_numeric(x, errors='coerce')` on a scalar cell that is
`None` or a string: finite numerals coerce to their exact value, and `None`
and unparseable text to null.  (The spellings of the non-finite float
constants coerce to those constants in pandas; they do not occur in the
traffic API's scalar fields and no claim depends on them, so the rational
numeric fields map them to null here.) -/
def toNumeric (t : Option String) : Option ℚ :=
  t.bind fun s =>
    match pyFloat s with
    | some (.finite q) => some q
    | _ => none

/-- Model of Python `str(x)` on a value that is either `None` or a string. -/
def pyStrOfOpt (t : Option String) : String := t.getD "None"

/-- Model of `df['roadClosure'].astype(str).str.lower() == 'true'` on one
cell (lower-casing character by character, as `str.lower` does on the ASCII
strings involved). -/
def roadClosureOfText (t : Option String) : Bool :=
  String.mk ((pyStrOfOpt t).data.map Char.toLower) == "true"

/-- Model of
`lat = float(lat_elem.text) if lat_elem is not None and lat_elem.text else None`:
`Except.error` is the `ValueError` raised by `float` on unparseable nonempty
text. -/
def coordField : Option String → Except Unit (Option PyFloat)
  | none => .ok none
  | some s =>
      if s = "" then .ok none
      else
        match pyFloat s with
        | some v => .ok (some v)
        | none => .error ()

/-- Model of the coordinate loop: each entry computes both fields (either can
raise), and the pair is appended only when both are present. -/
def collectCoords : List CoordEntry → Except Unit (List (PyFloat × PyFloat))
  | [] => .ok []
  | e :: es =>
      match coordField e.latitude with
      | .error u => .error u
      | .ok la =>
          match coordField e.longitude with
          | .error u => .error u
          | .ok lo =>
              match collectCoords es with
              | .error u => .error u
              | .ok rest =>
                  match la, lo with
                  | some v₁, some v₂ => .ok ((v₁, v₂) :: rest)
                  | _, _ => .ok rest

/-- The entries the coordinate loop actually visits: none when
`root.find('coordinates')` is `None`. -/
def effEntries (d : TrafficXml) : List CoordEntry :=
  if d.hasCoordinates then d.coordEntries else []

/-- Embedding of `parse_traffic_response_to_dataframe`.  The argument is
`none` when the payload is empty or `ET.fromstring` raises `ParseError`
(the function then returns an empty DataFrame); `some d` is a well-formed
document.  A `ValueError` escaping the coordinate loop is caught by the
blanket `except Exception` handler, which also returns an empty DataFrame. -/
def parse_traffic_response_to_dataframe (xml : Option TrafficXml) : List TrafficRecord :=
  match xml with
  | none => []
  | some d =>
      match collectCoords (effEntries d) with
      | .error _ => []
      | .ok cs =>
          [{ frc := d.frc
             currentSpeed := toNumeric d.currentSpeed
             freeFlowSpeed := toNumeric d.freeFlowSpeed
             currentTravelTime := toNumeric d.currentTravelTime
             freeFlowTravelTime := toNumeric d.freeFlowTravelTime
             confidence := toNumeric d.confidence
             roadClosure := roadClosureOfText d.roadClosure
             coordinate_count := cs.length
             coordinates := cs }]

/-! ## Characterisation of the traffic parser -/

/-- Nonempty text that `float` cannot parse: the one per-field situation that
raises inside the parser's `try` block. -/
def badText : Option String → Bool
  | none => false
  | some s => if s = "" then false else (pyFloat s).isNone

def badEntry (e : CoordEntry) : Bool := badText e.latitude || badText e.longitude

/-- The document makes the parser's coordinate loop raise. -/
def docRaises (d : TrafficXml) : Bool := (effEntries d).any badEntry

/-- The coordinate pair retained from one entry (outside the raising case). -/
def keptOfEntry (e : CoordEntry) : Option (PyFloat × PyFloat) :=
  match coordField e.latitude, coordField e.longitude with
  | .ok (some v₁), .ok (some v₂) => some (v₁, v₂)
  | _, _ => none

def keptCoords (es : List CoordEntry) : List (PyFloat × PyFloat) := es.filterMap keptOfEntry

lemma coordField_cases (t : Option String) :
    (badText t = true ∧ coordField t = .error ()) ∨
    (badText t = false ∧ ∃ x, coordField t = .ok x) := by
  cases t with
  | none => exact Or.inr ⟨rfl, none, rfl⟩
  | some s =>
      by_cases hs : s = ""
      · exact Or.inr ⟨by simp [badText, hs], none, by simp [coordField, hs]⟩
      · cases hq : pyFloat s with
        | none =>
            exact Or.inl ⟨by simp [badText, hs, hq], by simp [coordField, hs, hq]⟩
        | some q =>
            exact Or.inr ⟨by simp [badText, hs, hq], some q, by simp [coordField, hs, hq]⟩

lemma collectCoords_eq (es : List CoordEntry) :
    collectCoords es = if es.any badEntry then .error () else .ok (keptCoords es) := by
  induction es with
  | nil => simp [collectCoords, keptCoords]
  | cons e es ih =>
      rcases coordField_cases e.latitude with ⟨hb, he⟩ | ⟨hb, x, he⟩
      · simp [collectCoords, he, badEntry, hb]
      · rcases coordField_cases e.longitude with ⟨hb2, he2⟩ | ⟨hb2, y, he2⟩
        · simp [collectCoords, he, he2, badEntry, hb, hb2]
        · by_cases ha : es.any badEntry = true
          · simp [collectCoords, he, he2, ih, badEntry, hb, hb2, ha]
          · rw [Bool.not_eq_true] at ha
            cases x <;> cases y <;>
              simp [collectCoords, he, he2, ih, badEntry, hb, hb2, ha,
                keptCoords, keptOfEntry]

/-- The record built from a document on the non-raising path. -/
def mkTrafficRecord (d : TrafficXml) : TrafficRecord :=
  { frc := d.frc
    currentSpeed := toNumeric d.currentSpeed
    freeFlowSpeed := toNumeric d.freeFlowSpeed
    currentTravelTime := toNumeric d.currentTravelTime
    freeFlowTravelTime := toNumeric d.freeFlowTravelTime
    confidence := toNumeric d.confidence
    roadClosure := roadClosureOfText d.roadClosure
    coordinate_count := (keptCoords (effEntries d)).length
    coordinates := keptCoords (effEntries d) }

lemma parse_traffic_spec (d : TrafficXml) :
    parse_traffic_response_to_dataframe (some d) =
      if docRaises d then [] else [mkTrafficRecord d] := by
  simp only [parse_traffic_response_to_dataframe, docRaises]
  rw [collectCoords_eq]
  by_cases h : (effEntries d).any badEntry = true
  · simp [h]
  · rw [Bool.not_eq_true] at h
    simp [h, mkTrafficRecord]

/-! ## Scalar tags, viewed uniformly -/

inductive ScalarTag
  | frc | currentSpeed | freeFlowSpeed | currentTravelTime
  | freeFlowTravelTime | confidence | roadClosure
deriving DecidableEq

def TrafficXml.getTag (d : TrafficXml) : ScalarTag → Option String
  | .frc => d.frc
  | .currentSpeed => d.currentSpeed
  | .freeFlowSpeed => d.freeFlowSpeed
  | .currentTravelTime => d.currentTravelTime
  | .freeFlowTravelTime => d.freeFlowTravelTime
  | .confidence => d.confidence
  | .roadClosure => d.roadClosure

def TrafficXml.setTag (d : TrafficXml) : ScalarTag → Option String → TrafficXml
  | .frc, v => { d with frc := v }
  | .currentSpeed, v => { d with currentSpeed := v }
  | .freeFlowSpeed, v => { d with freeFlowSpeed := v }
  | .currentTravelTime, v => { d with currentTravelTime := v }
  | .freeFlowTravelTime, v => { d with freeFlowTravelTime := v }
  | .confidence, v => { d with confidence := v }
  | .roadClosure, v => { d with roadClosure := v }

/-- One parsed scalar cell: a nullable string, a nullable number, or the
boolean that `roadClosure` is coerced to. -/
inductive FieldVal
  | strv (s : Option String)
  | numv (q : Option ℚ)
  | boolv (b : Bool)
deriving DecidableEq

def TrafficRecord.field (r : TrafficRecord) : ScalarTag → FieldVal
  | .frc => .strv r.frc
  | .currentSpeed => .numv r.currentSpeed
  | .freeFlowSpeed => .numv r.freeFlowSpeed
  | .currentTravelTime => .numv r.currentTravelTime
  | .freeFlowTravelTime => .numv r.freeFlowTravelTime
  | .confidence => .numv r.confidence
  | .roadClosure => .boolv r.roadClosure

/-- The value the parser produces for a scalar tag that is absent from the
document: null for `frc` and the numeric tags, `false` for `roadClosure`
(whose cell is `str(None).lower() == 'true'`). -/
def missingFieldValue : ScalarTag → FieldVal
  | .frc => .strv none
  | .roadClosure => .boolv false
  | _ => .numv none

lemma setTag_effEntries (d : TrafficXml) (t : ScalarTag) (v : Option String) :
    effEntries (d.setTag t v) = effEntries d := by
  cases t <;> rfl

lemma setTag_docRaises (d : TrafficXml) (t : ScalarTag) (v : Option String) :
    docRaises (d.setTag t v) = docRaises d := by
  unfold docRaises
  rw [setTag_effEntries]

/-! ## Model of the weather JSON document

`parse_weather_response_to_dataframe` reads `main.temp`, `main.feels_like`,
`main.pressure`, `main.humidity`, `wind.speed`, `wind.deg`,
`weather[0].description`, `weather[0].icon`, `clouds.all` and `name`, every
lookup via `.get` with a default — except the `[0]` index into `weather`,
which raises `IndexError` when the list is present and empty. -/

structure MainObj where
  temp : Option ℚ
  feels_like : Option ℚ
  pressure : Option ℚ
  humidity : Option ℚ
deriving DecidableEq

structure WindObj where
  speed : Option ℚ
  deg : Option ℚ
deriving DecidableEq

structure WeatherItem where
  description : Option String
  icon : Option String
deriving DecidableEq

structure CloudsObj where
  all : Option ℚ
deriving DecidableEq

structure WeatherJson where
  main : Option MainObj
  wind : Option WindObj
  weather : Option (List WeatherItem)
  clouds : Option CloudsObj
  name : Option String
deriving DecidableEq

/-- The `location_coords` dict handed to the weather parser; `.get` on a
missing key gives `None`. -/
structure LocationCoords where
  lat : Option ℚ
  lon : Option ℚ
deriving DecidableEq

structure WeatherRecord where
  latitude : Option ℚ
  longitude : Option ℚ
  timestamp_utc : String
  temperature_celsius : Option ℚ
  feels_like_celsius : Option ℚ
  pressure_hpa : Option ℚ
  humidity_percent : Option ℚ
  wind_speed_mps : Option ℚ
  wind_deg : Option ℚ
  weather_description : Option String
  weather_icon : Option String
  cloudiness_percent : Option ℚ
  city_name : Option String
deriving DecidableEq

def emptyMain : MainObj := ⟨none, none, none, none⟩

def emptyWind : WindObj := ⟨none, none⟩

def emptyClouds : CloudsObj := ⟨none⟩

def emptyWeatherItem : WeatherItem := ⟨none, none⟩

/-- Model of `data.get('weather', [{}])`. -/
def weatherItems (w : Option (List WeatherItem)) : List WeatherItem :=
  w.getD [emptyWeatherItem]

/-- Embedding of `parse_weather_response_to_dataframe` on well-typed
payloads (every nested value of the expected kind).  The first argument is
`none` when the payload is empty or `json.loads` raises (empty DataFrame);
`now_utc` is the value of `datetime.datetime.now(timezone.utc).isoformat()`
observed at the moment of parsing.  The `IndexError` from `weather[0]` on a
present-but-empty list is caught by the blanket handler, yielding an empty
DataFrame.  `parse_weather_json` below embeds the same function over the
full decoded JSON document, null-valued and mistyped nested entries
included; the two agree on well-typed payloads
(`parse_weather_json_toJson`). -/
def parse_weather_response_to_dataframe (json : Option WeatherJson)
    (location_coords : LocationCoords) (now_utc : String) : List WeatherRecord :=
  match json with
  | none => []
  | some d =>
      match weatherItems d.weather with
      | [] => []
      | w₀ :: _ =>
          [{ latitude := location_coords.lat
             longitude := location_coords.lon
             timestamp_utc := now_utc
             temperature_celsius := (d.main.getD emptyMain).temp
             feels_like_celsius := (d.main.getD emptyMain).feels_like
             pressure_hpa := (d.main.getD emptyMain).pressure
             humidity_percent := (d.main.getD emptyMain).humidity
             wind_speed_mps := (d.wind.getD emptyWind).speed
             wind_deg := (d.wind.getD emptyWind).deg
             weather_description := w₀.description
             weather_icon := w₀.icon
             cloudiness_percent := (d.clouds.getD emptyClouds).all
             city_name := d.name }]

/-! ## The weather parser over the full decoded JSON document

A decoded JSON payload can hold null-valued or mistyped nested entries —
`{"main": null}`, `{"weather": 5}`, a non-object top level — on which the
`.get` chains of the record construction raise (`AttributeError` on `.get`
of a non-dict, `TypeError`/`KeyError`/`IndexError` on `[0]` of a
non-indexable, dict, or empty sequence), all caught by the blanket handler.
`parse_weather_json` embeds `parse_weather_response_to_dataframe` over an
arbitrary decoded document so those paths are representable. -/

inductive JsonVal
  | null
  | boolean (b : Bool)
  | num (q : ℚ)
  | str (s : String)
  | arr (xs : List JsonVal)
  | obj (fields : List (String × JsonVal))

/-- Values produced for the numeric columns by
`pd.to_numeric(errors='coerce')`: numbers keep their value, booleans coerce
to 0/1, numeric strings are parsed, and null and non-numeric strings become
null (container cells are treated as coerced to null as well). -/
def jsonToNumeric : JsonVal → Option ℚ
  | .num q => some q
  | .boolean b => some (if b then 1 else 0)
  | .str s =>
      match pyFloat s with
      | some (.finite q) => some q
      | _ => none
  | _ => none

/-- The record over an arbitrary document: the numeric columns after
coercion, the uncoerced columns as the raw JSON values they hold. -/
structure WeatherRecordJson where
  latitude : Option ℚ
  longitude : Option ℚ
  timestamp_utc : String
  temperature_celsius : Option ℚ
  feels_like_celsius : Option ℚ
  pressure_hpa : Option ℚ
  humidity_percent : Option ℚ
  wind_speed_mps : Option ℚ
  wind_deg : Option ℚ
  weather_description : JsonVal
  weather_icon : JsonVal
  cloudiness_percent : Option ℚ
  city_name : JsonVal

/-- Model of `data.get(k1, {}).get(k2)`: `.get` on anything but a dict
raises `AttributeError`; a missing key yields the default. -/
def pyGetChain (data : JsonVal) (k₁ k₂ : String) : Except Unit JsonVal :=
  match data with
  | .obj fields =>
      match (fields.lookup k₁).getD (.obj []) with
      | .obj f₂ => .ok ((f₂.lookup k₂).getD .null)
      | _ => .error ()
  | _ => .error ()

/-- Model of `data.get('weather', [{}])[0]`: indexing an empty list or
empty string raises `IndexError`, a nonempty string yields its first
character, a dict raises `KeyError` (JSON object keys are strings, never
the integer 0), and null/numbers/booleans raise `TypeError`. -/
def pyWeatherItem (data : JsonVal) : Except Unit JsonVal :=
  match data with
  | .obj fields =>
      match (fields.lookup "weather").getD (.arr [.obj []]) with
      | .arr [] => .error ()
      | .arr (x :: _) => .ok x
      | .str s =>
          match s.data with
          | [] => .error ()
          | c :: _ => .ok (.str (String.mk [c]))
      | _ => .error ()
  | _ => .error ()

/-- Model of `item.get(k)` on the indexed weather entry. -/
def pyItemGet (item : JsonVal) (k : String) : Except Unit JsonVal :=
  match item with
  | .obj f => .ok ((f.lookup k).getD .null)
  | _ => .error ()

/-- Total lookup used where the source cannot raise (`data.get('name')`,
reached only after `data` proved to be a dict). -/
def jLookup (v : JsonVal) (k : String) : Option JsonVal :=
  match v with
  | .obj f => f.lookup k
  | _ => none

/-- The record construction of `parse_weather_response_to_dataframe` over an
arbitrary decoded document, with the numeric-column coercion applied; any
raise from a `.get` chain or the `[0]` index propagates (the source
evaluates `data.get('weather', [{}])[0]` once for `description` and once
for `icon`). -/
def weatherBody (data : JsonVal) (location_coords : LocationCoords)
    (now_utc : String) : Except Unit WeatherRecordJson := do
  let temp ← pyGetChain data "main" "temp"
  let feels ← pyGetChain data "main" "feels_like"
  let pres ← pyGetChain data "main" "pressure"
  let hum ← pyGetChain data "main" "humidity"
  let wsp ← pyGetChain data "wind" "speed"
  let wdg ← pyGetChain data "wind" "deg"
  let item₁ ← pyWeatherItem data
  let desc ← pyItemGet item₁ "description"
  let item₂ ← pyWeatherItem data
  let icon ← pyItemGet item₂ "icon"
  let cl ← pyGetChain data "clouds" "all"
  .ok { latitude := location_coords.lat
        longitude := location_coords.lon
        timestamp_utc := now_utc
        temperature_celsius := jsonToNumeric temp
        feels_like_celsius := jsonToNumeric feels
        pressure_hpa := jsonToNumeric pres
        humidity_percent := jsonToNumeric hum
        wind_speed_mps := jsonToNumeric wsp
        wind_deg := jsonToNumeric wdg
        weather_description := desc
        weather_icon := icon
        cloudiness_percent := jsonToNumeric cl
        city_name := (jLookup data "name").getD .null }

/-- Embedding of `parse_weather_response_to_dataframe` over the full decoded
JSON document: the argument is `none` when the payload is empty or
`json.loads` raises; every error raised while building the record is caught
by the blanket handler, which returns an empty DataFrame. -/
def parse_weather_json (json : Option JsonVal) (location_coords : LocationCoords)
    (now_utc : String) : List WeatherRecordJson :=
  match json with
  | none => []
  | some data =>
      match weatherBody data location_coords now_utc with
      | .error _ => []
      | .ok r => [r]

/-! ## Model of pandas DataFrames for the transform step

A table is its column list plus its rows; a row is an association list from
column name to a nullable numeric cell (the transform only ever reads the
five numeric metric columns).  A key absent from a row models the `NaN` that
`pd.concat` fills in for a column the originating file lacked. -/

abbrev Row := List (String × Option ℚ)

def rowGet (r : Row) (c : String) : Option ℚ := (r.lookup c).getD none

structure DataFrame where
  cols : List String
  rows : List Row
deriving DecidableEq

/-- Column union as `pd.concat` produces it: first appearance order. -/
def unionCols (acc cs : List String) : List String :=
  acc ++ cs.filter (fun c => !(acc.contains c))

/-- Model of `pd.concat(all_dataframes, ignore_index=True)`. -/
def concatDFs (dfs : List DataFrame) : DataFrame :=
  { cols := (dfs.map DataFrame.cols).foldl unionCols []
    rows := (dfs.map DataFrame.rows).flatten }

/-- Model of `combined_df[col].mean()`: the arithmetic mean of the non-null
cells, `none` (pandas `NaN`) when every cell is null. -/
def colMean (df : DataFrame) (c : String) : Option ℚ :=
  let vs := df.rows.filterMap (fun r => rowGet r c)
  if vs.isEmpty then none else some (vs.sum / (vs.length : ℚ))

def numeric_cols_for_avg : List String :=
  ["currentSpeed", "freeFlowSpeed", "currentTravelTime", "freeFlowTravelTime", "confidence"]

/-- The unit-qualified key chosen for a column that is present. -/
def avgKey (c : String) : String :=
  if c = "currentSpeed" ∨ c = "freeFlowSpeed" then "average_" ++ c ++ "_kmph"
  else if c = "currentTravelTime" ∨ c = "freeFlowTravelTime" then
    "average_" ++ c ++ "_seconds_per_segment"
  else if c = "confidence" then "average_" ++ c ++ "_unitless"
  else "average_" ++ c

/-- Embedding of the averages loop of `transform_traffic_data`: the dict is an
association list in insertion order; the `elif` guard checks that the bare key
was not already inserted. -/
def computeAverages (df : DataFrame) : List (String × Option ℚ) :=
  numeric_cols_for_avg.foldl
    (fun acc c =>
      if df.cols.contains c then acc ++ [(avgKey c, colMean df c)]
      else if (acc.lookup ("average_" ++ c)).isNone then
        acc ++ [("average_" ++ c, none)]
      else acc)
    []

/-- Embedding of the travel-time derivation: `averages.get(...)` followed by
the `isinstance`/sign checks, the kmph→mps conversion and the division.  A
dict value that is `None` or `NaN` is `none` here: `None` fails `isinstance`
and `NaN` fails `>= 0`, so both take the null branch exactly as below. -/
def estimateTravelTime (averages : List (String × Option ℚ)) (distMeters : ℚ) : Option ℚ :=
  match (averages.lookup "average_currentSpeed_kmph").getD none with
  | none => none
  | some a =>
      if 0 ≤ a ∧ 0 < distMeters then
        let mps := a * 1000 / 3600
        if 0 < mps then some (distMeters / mps) else none
      else none

/-- The hard-coded placeholder distance of the source. -/
def route_distance_meters : ℚ := 5000

/-- Embedding of `transform_traffic_data`.  Each list element is the outcome
of `pd.read_parquet` on one path: `some df` on success, `none` when reading
raised and the file was skipped. -/
def transform_traffic_data (files : List (Option DataFrame)) :
    DataFrame × List (String × Option ℚ) × Option ℚ :=
  if files.isEmpty then (⟨[], []⟩, [], none)
  else
    let dfs := files.filterMap id
    if dfs.isEmpty then (⟨[], []⟩, [], none)
    else
      let combined := concatDFs dfs
      let averages := computeAverages combined
      (combined, averages, estimateTravelTime averages route_distance_meters)

/-! ## Model of the DuckDB loader

The store is an association list from table name to table.
`CREATE OR REPLACE TABLE` creates the entry or replaces its table. -/

abbrev Store := List (String × DataFrame)

def storeSet : Store → String → DataFrame → Store
  | [], n, df => [(n, df)]
  | (m, t) :: rest, n, df =>
      if m = n then (n, df) :: rest else (m, t) :: storeSet rest n df

/-- Model of `df.empty`. -/
def dfEmpty (df : DataFrame) : Bool := df.rows.isEmpty || df.cols.isEmpty

structure LoadResult where
  store : Store
  raised : Bool
  writeAttempts : ℕ
deriving DecidableEq

/-- Embedding of `load_transformed_data_to_duckdb`.  `writeSucceeds` is the
outcome of the single `CREATE OR REPLACE` call; when it fails the exception
is caught by the `except` clause (which only prints), the connection is
closed in `finally`, and the function returns normally — `raised` records
whether an exception escapes to the caller. -/
def load_transformed_data_to_duckdb (df : DataFrame) (table_name : String)
    (writeSucceeds : Bool) (store : Store) : LoadResult :=
  if dfEmpty df then ⟨store, false, 0⟩
  else if writeSucceeds then ⟨storeSet store table_name df, false, 1⟩
  else ⟨store, false, 1⟩

lemma lookup_storeSet (s : Store) (n : String) (df : DataFrame) :
    (storeSet s n df).lookup n = some df := by
  induction s with
  | nil => simp [storeSet, List.lookup]
  | cons p rest ih =>
      obtain ⟨m, t⟩ := p
      by_cases h : m = n
      · simp [storeSet, h, List.lookup]
      · have hnm : (n == m) = false := beq_eq_false_iff_ne.mpr (Ne.symm h)
        simp [storeSet, h, List.lookup, hnm, ih]

/-! ## Additional helper lemmas and concrete inputs -/

lemma flatten_rows_length (l : List DataFrame) :
    ((l.map DataFrame.rows).flatten).length = (l.map (fun d => d.rows.length)).sum := by
  induction l with
  | nil => rfl
  | cons d l ih => simp [ih]

/-- The entry supplies both a latitude and a longitude value that parse. -/
def hasNum (t : Option String) : Bool :=
  match coordField t with
  | .ok (some _) => true
  | _ => false

def goodEntry (e : CoordEntry) : Bool := hasNum e.latitude && hasNum e.longitude

lemma badText_eq_false_of_hasNum (t : Option String) (h : hasNum t = true) :
    badText t = false := by
  rcases coordField_cases t with ⟨hb, he⟩ | ⟨hb, x, he⟩
  · unfold hasNum at h
    rw [he] at h
    simp at h
  · exact hb

lemma keptOfEntry_isSome_of_good (e : CoordEntry) (h : goodEntry e = true) :
    (keptOfEntry e).isSome = true := by
  unfold goodEntry at h
  rw [Bool.and_eq_true] at h
  obtain ⟨h1, h2⟩ := h
  unfold hasNum at h1 h2
  unfold keptOfEntry
  cases hl : coordField e.latitude with
  | error u => rw [hl] at h1; simp at h1
  | ok la =>
      rw [hl] at h1
      cases la with
      | none => simp at h1
      | some v₁ =>
          cases ho : coordField e.longitude with
          | error u => rw [ho] at h2; simp at h2
          | ok lo =>
              rw [ho] at h2
              cases lo with
              | none => simp at h2
              | some v₂ => simp

lemma keptCoords_length_of_good (es : List CoordEntry) (h : es.all goodEntry = true) :
    (keptCoords es).length = es.length := by
  induction es with
  | nil => rfl
  | cons e es ih =>
      rw [List.all_cons, Bool.and_eq_true] at h
      obtain ⟨he, hes⟩ := h
      obtain ⟨p, hp⟩ := Option.isSome_iff_exists.mp (keptOfEntry_isSome_of_good e he)
      have ih2 := ih hes
      simp only [keptCoords, List.filterMap_cons, hp, List.length_cons] at ih2 ⊢
      omega

lemma not_raises_of_all_good (es : List CoordEntry) (h : es.all goodEntry = true) :
    es.any badEntry = false := by
  induction es with
  | nil => rfl
  | cons e es ih =>
      rw [List.all_cons, Bool.and_eq_true] at h
      obtain ⟨he, hes⟩ := h
      unfold goodEntry at he
      rw [Bool.and_eq_true] at he
      have h1 : badText e.latitude = false := badText_eq_false_of_hasNum _ he.1
      have h2 : badText e.longitude = false := badText_eq_false_of_hasNum _ he.2
      simp [List.any_cons, badEntry, h1, h2, ih hes]

lemma keptOfEntry_none_of_lacking (e : CoordEntry)
    (h : coordField e.latitude = .ok none ∨ coordField e.longitude = .ok none) :
    keptOfEntry e = none := by
  unfold keptOfEntry
  rcases h with h | h
  · rw [h]
  · rw [h]
    cases coordField e.latitude with
    | error u => rfl
    | ok la => cases la <;> rfl

/-! ## C1 — the derived travel-time estimate -/

/-- Spec-side restatement of the derivation rule, written from the spec's
words: convert the average current speed from km/h to m/s with the factor
1000/3600 and return distanceMeters divided by that speed, only if the
average speed is a valid non-negative number, the distance is positive and
the converted speed is strictly positive; null otherwise. -/
def specEstimate (avg : Option ℚ) (distMeters : ℚ) : Option ℚ :=
  match avg with
  | some a =>
      if 0 ≤ a ∧ 0 < distMeters ∧ 0 < a * 1000 / 3600
      then some (distMeters / (a * 1000 / 3600)) else none
  | none => none

/-- C1: for every averages mapping and route distance the estimate equals
distanceMeters / (avgCurrentSpeedKmph * 1000 / 3600) when the average current
speed is a valid non-negative number, the distance is positive and the
converted speed is strictly positive, and is null otherwise; in particular
36 km/h over 5000 m gives exactly 500 s, while an average of 0 or null gives
a null estimate (also end-to-end through `transform_traffic_data`). -/
theorem C1_estimated_travel_time (m : List (String × Option ℚ)) (dist : ℚ) :
    estimateTravelTime m dist =
      specEstimate ((m.lookup "average_currentSpeed_kmph").getD none) dist ∧
    estimateTravelTime [("average_currentSpeed_kmph", some 36)] 5000 = some 500 ∧
    estimateTravelTime [("average_currentSpeed_kmph", some 0)] dist = none ∧
    estimateTravelTime [("average_currentSpeed_kmph", none)] dist = none ∧
    (transform_traffic_data
        [some ⟨["currentSpeed"], [[("currentSpeed", some 36)]]⟩]).2.2 = some 500 := by
  have h36 : ∀ mean36 : ℚ, mean36 = 36 →
      estimateTravelTime [("average_currentSpeed_kmph", some mean36)] 5000 = some 500 := by
    intro mean36 hm
    show (if 0 ≤ mean36 ∧ 0 < (5000 : ℚ) then
        if 0 < mean36 * 1000 / 3600 then some ((5000 : ℚ) / (mean36 * 1000 / 3600)) else none
      else none) = some 500
    subst hm
    norm_num
  refine ⟨?_, h36 36 rfl, ?_, rfl, ?_⟩
  · cases h : (m.lookup "average_currentSpeed_kmph").getD none with
    | none => simp [estimateTravelTime, specEstimate, h]
    | some a =>
        simp only [estimateTravelTime, specEstimate, h]
        split_ifs <;> first | rfl | tauto
  · show (if 0 ≤ (0 : ℚ) ∧ 0 < dist then
        if 0 < (0 : ℚ) * 1000 / 3600 then some (dist / ((0 : ℚ) * 1000 / 3600)) else none
      else none) = none
    split_ifs <;> norm_num at *
  · show estimateTravelTime
        (computeAverages (concatDFs [⟨["currentSpeed"], [[("currentSpeed", some 36)]]⟩]))
        route_distance_meters = some 500
    have hmean : colMean (concatDFs [⟨["currentSpeed"], [[("currentSpeed", some 36)]]⟩])
        "currentSpeed" = some 36 := by
      show (if ([(36 : ℚ)]).isEmpty then none
          else some (([(36 : ℚ)]).sum / (([(36 : ℚ)]).length : ℚ))) = some 36
      norm_num
    have hca : computeAverages (concatDFs [⟨["currentSpeed"], [[("currentSpeed", some 36)]]⟩]) =
        [("average_currentSpeed_kmph", some 36), ("average_freeFlowSpeed", none),
         ("average_currentTravelTime", none), ("average_freeFlowTravelTime", none),
         ("average_confidence", none)] := by
      rw [show computeAverages (concatDFs [⟨["currentSpeed"], [[("currentSpeed", some 36)]]⟩]) =
          [("average_currentSpeed_kmph",
            colMean (concatDFs [⟨["currentSpeed"], [[("currentSpeed", some 36)]]⟩]) "currentSpeed"),
           ("average_freeFlowSpeed", none), ("average_currentTravelTime", none),
           ("average_freeFlowTravelTime", none), ("average_confidence", none)] from rfl, hmean]
    rw [hca]
    exact h36 36 rfl

/-- Witness for C1 at a concrete averages mapping. -/
theorem C1_witness :
    estimateTravelTime [("average_currentSpeed_kmph", some 36)] 5000 = some 500 :=
  (C1_estimated_travel_time [] 1).2.1

/-! ## C2 — when the parsers yield an empty result -/

def isObj : JsonVal → Bool
  | .obj _ => true
  | _ => false

/-- The key is present with a non-dict value — the `.get` chains raise on it. -/
def nonObjPresent (fields : List (String × JsonVal)) (k : String) : Bool :=
  match fields.lookup k with
  | some v => !(isObj v)
  | none => false

/-- The `weather[0].get(...)` chain raises: the key is present and its value
is not a nonempty array whose first element is an object (empty array,
non-array value, string, or a nonempty array of non-objects). -/
def weatherChainBad (fields : List (String × JsonVal)) : Bool :=
  match fields.lookup "weather" with
  | none => false
  | some (.arr []) => true
  | some (.arr (x :: _)) => !(isObj x)
  | some _ => true

/-- The weather record construction raises: the top level is not an object,
or one of `main`, `wind`, `clouds` is present with a non-object value, or
the weather chain is bad. -/
def weatherRaises : JsonVal → Bool
  | .obj fields =>
      nonObjPresent fields "main" || nonObjPresent fields "wind" ||
        weatherChainBad fields || nonObjPresent fields "clouds"
  | _ => true

/-- The value the `.get` chain yields on the non-raising path. -/
def chainVal (data : JsonVal) (k₁ k₂ : String) : JsonVal :=
  match (jLookup data k₁).getD (.obj []) with
  | .obj f₂ => (f₂.lookup k₂).getD .null
  | _ => .null

/-- The weather entry `[0]` yields on the non-raising path. -/
def itemVal (data : JsonVal) : JsonVal :=
  match (jLookup data "weather").getD (.arr [.obj []]) with
  | .arr (x :: _) => x
  | _ => .obj []

/-- The value `item.get(k)` yields on the non-raising path. -/
def itemGetVal (item : JsonVal) (k : String) : JsonVal :=
  match item with
  | .obj f => (f.lookup k).getD .null
  | _ => .null

/-- The record an arbitrary document parses to on the non-raising path. -/
def mkWeatherRecordJson (data : JsonVal) (location_coords : LocationCoords)
    (now_utc : String) : WeatherRecordJson :=
  { latitude := location_coords.lat
    longitude := location_coords.lon
    timestamp_utc := now_utc
    temperature_celsius := jsonToNumeric (chainVal data "main" "temp")
    feels_like_celsius := jsonToNumeric (chainVal data "main" "feels_like")
    pressure_hpa := jsonToNumeric (chainVal data "main" "pressure")
    humidity_percent := jsonToNumeric (chainVal data "main" "humidity")
    wind_speed_mps := jsonToNumeric (chainVal data "wind" "speed")
    wind_deg := jsonToNumeric (chainVal data "wind" "deg")
    weather_description := itemGetVal (itemVal data) "description"
    weather_icon := itemGetVal (itemVal data) "icon"
    cloudiness_percent := jsonToNumeric (chainVal data "clouds" "all")
    city_name := (jLookup data "name").getD .null }

lemma except_bind_ok {α β : Type} (a : α) (f : α → Except Unit β) :
    (Except.ok a : Except Unit α) >>= f = f a := rfl

lemma except_bind_error {α β : Type} (f : α → Except Unit β) :
    (Except.error () : Except Unit α) >>= f = Except.error () := rfl

lemma chain_spec (fields : List (String × JsonVal)) (k₁ k₂ : String) :
    pyGetChain (.obj fields) k₁ k₂ =
      if nonObjPresent fields k₁ then .error ()
      else .ok (chainVal (.obj fields) k₁ k₂) := by
  simp only [pyGetChain, nonObjPresent, chainVal, jLookup]
  rcases h : fields.lookup k₁ with _ | v
  · rfl
  · cases v <;> rfl

lemma pyItemGet_of_not_isObj (x : JsonVal) (h : isObj x = false) (k : String) :
    pyItemGet x k = .error () := by
  cases x <;> first | rfl | simp [isObj] at h

lemma pyItemGet_of_isObj (x : JsonVal) (h : isObj x = true) (k : String) :
    pyItemGet x k = .ok (itemGetVal x k) := by
  cases x <;> first | rfl | simp [isObj] at h

lemma pyWeatherItem_spec (fields : List (String × JsonVal)) :
    (weatherChainBad fields = true ∧
      (pyWeatherItem (.obj fields) = .error () ∨
        ∃ x, pyWeatherItem (.obj fields) = .ok x ∧ isObj x = false)) ∨
    (weatherChainBad fields = false ∧
      pyWeatherItem (.obj fields) = .ok (itemVal (.obj fields)) ∧
      isObj (itemVal (.obj fields)) = true) := by
  simp only [pyWeatherItem, weatherChainBad, itemVal, jLookup]
  rcases h : fields.lookup "weather" with _ | v
  · exact Or.inr ⟨rfl, rfl, rfl⟩
  · cases v with
    | null => exact Or.inl ⟨rfl, Or.inl rfl⟩
    | boolean b => exact Or.inl ⟨rfl, Or.inl rfl⟩
    | num q => exact Or.inl ⟨rfl, Or.inl rfl⟩
    | str s =>
        obtain ⟨cs⟩ := s
        cases cs with
        | nil => exact Or.inl ⟨rfl, Or.inl rfl⟩
        | cons c ct => exact Or.inl ⟨rfl, Or.inr ⟨.str (String.mk [c]), rfl, rfl⟩⟩
    | arr xs =>
        cases xs with
        | nil => exact Or.inl ⟨rfl, Or.inl rfl⟩
        | cons x xt =>
            cases hx : isObj x with
            | false => exact Or.inl ⟨by simp [hx], Or.inr ⟨x, rfl, hx⟩⟩
            | true => exact Or.inr ⟨by simp [hx], rfl, hx⟩
    | obj f => exact Or.inl ⟨rfl, Or.inl rfl⟩

lemma weatherBody_eq (data : JsonVal) (coords : LocationCoords) (now : String) :
    weatherBody data coords now =
      if weatherRaises data then .error ()
      else .ok (mkWeatherRecordJson data coords now) := by
  cases data with
  | obj fields =>
      simp only [weatherBody, bind, Except.bind, weatherRaises]
      by_cases hm : nonObjPresent fields "main" = true
      · simp [chain_spec, hm]
      · rw [Bool.not_eq_true] at hm
        by_cases hw : nonObjPresent fields "wind" = true
        · simp [chain_spec, hm, hw]
        · rw [Bool.not_eq_true] at hw
          by_cases hc : nonObjPresent fields "clouds" = true
          · rcases pyWeatherItem_spec fields with
              ⟨hwb, herr | ⟨x, hx, hxo⟩⟩ | ⟨hwb, hok, hobj⟩
            · simp [chain_spec, hm, hw, hc, hwb, herr]
            · simp [chain_spec, hm, hw, hc, hwb, hx,
                pyItemGet_of_not_isObj x hxo]
            · simp [chain_spec, hm, hw, hc, hwb, hok,
                pyItemGet_of_isObj _ hobj]
          · rw [Bool.not_eq_true] at hc
            rcases pyWeatherItem_spec fields with
              ⟨hwb, herr | ⟨x, hx, hxo⟩⟩ | ⟨hwb, hok, hobj⟩
            · simp [chain_spec, hm, hw, hc, hwb, herr]
            · simp [chain_spec, hm, hw, hc, hwb, hx,
                pyItemGet_of_not_isObj x hxo]
            · simp [chain_spec, hm, hw, hc, hwb, hok,
                pyItemGet_of_isObj _ hobj, mkWeatherRecordJson]
  | null => rfl
  | boolean b => rfl
  | num q => rfl
  | str s => rfl
  | arr xs => rfl

def optNum : Option ℚ → JsonVal
  | none => .null
  | some q => .num q

def optStr : Option String → JsonVal
  | none => .null
  | some s => .str s

def MainObj.toJson (m : MainObj) : JsonVal :=
  .obj [("temp", optNum m.temp), ("feels_like", optNum m.feels_like),
        ("pressure", optNum m.pressure), ("humidity", optNum m.humidity)]

def WindObj.toJson (w : WindObj) : JsonVal :=
  .obj [("speed", optNum w.speed), ("deg", optNum w.deg)]

def WeatherItem.toJson (w : WeatherItem) : JsonVal :=
  .obj [("description", optStr w.description), ("icon", optStr w.icon)]

def CloudsObj.toJson (c : CloudsObj) : JsonVal :=
  .obj [("all", optNum c.all)]

/-- A key that is present only when its value is. -/
def optEntry (k : String) (v : Option JsonVal) : List (String × JsonVal) :=
  match v with
  | none => []
  | some j => [(k, j)]

def WeatherJson.toJsonFields (d : WeatherJson) : List (String × JsonVal) :=
  optEntry "main" (d.main.map MainObj.toJson) ++
    optEntry "wind" (d.wind.map WindObj.toJson) ++
    optEntry "weather" ((d.weather).map fun l => .arr (l.map WeatherItem.toJson)) ++
    optEntry "clouds" (d.clouds.map CloudsObj.toJson) ++
    optEntry "name" (d.name.map JsonVal.str)

/-- The decoded document corresponding to a well-typed structured payload: a
represented key absent from the structure is absent from the document. -/
def WeatherJson.toJson (d : WeatherJson) : JsonVal := .obj d.toJsonFields

/-- The generic record a well-typed structured record corresponds to. -/
def weatherRecordToJson (r : WeatherRecord) : WeatherRecordJson :=
  { latitude := r.latitude
    longitude := r.longitude
    timestamp_utc := r.timestamp_utc
    temperature_celsius := r.temperature_celsius
    feels_like_celsius := r.feels_like_celsius
    pressure_hpa := r.pressure_hpa
    humidity_percent := r.humidity_percent
    wind_speed_mps := r.wind_speed_mps
    wind_deg := r.wind_deg
    weather_description := optStr r.weather_description
    weather_icon := optStr r.weather_icon
    cloudiness_percent := r.cloudiness_percent
    city_name := optStr r.city_name }

lemma jsonToNumeric_optNum (o : Option ℚ) : jsonToNumeric (optNum o) = o := by
  cases o <;> rfl

lemma jsonToNumeric_null : jsonToNumeric .null = none := rfl

lemma lookup_optEntry_ne (k k' : String) (v : Option JsonVal)
    (rest : List (String × JsonVal)) (h : (k == k') = false) :
    (optEntry k' v ++ rest).lookup k = rest.lookup k := by
  cases v <;> simp [optEntry, List.lookup, h]

lemma tj_lookup_main (d : WeatherJson) :
    d.toJsonFields.lookup "main" = d.main.map MainObj.toJson := by
  simp only [WeatherJson.toJsonFields, List.append_assoc]
  cases d.main with
  | none =>
      rw [show optEntry "main" (Option.map MainObj.toJson none) = [] from rfl,
        List.nil_append,
        lookup_optEntry_ne _ _ _ _ (by decide), lookup_optEntry_ne _ _ _ _ (by decide),
        lookup_optEntry_ne _ _ _ _ (by decide)]
      cases d.name <;> rfl
  | some m => rfl

lemma tj_lookup_wind (d : WeatherJson) :
    d.toJsonFields.lookup "wind" = d.wind.map WindObj.toJson := by
  simp only [WeatherJson.toJsonFields, List.append_assoc]
  rw [lookup_optEntry_ne _ _ _ _ (by decide)]
  cases d.wind with
  | none =>
      rw [show optEntry "wind" (Option.map WindObj.toJson none) = [] from rfl,
        List.nil_append,
        lookup_optEntry_ne _ _ _ _ (by decide), lookup_optEntry_ne _ _ _ _ (by decide)]
      cases d.name <;> rfl
  | some w => rfl

lemma tj_lookup_weather (d : WeatherJson) :
    d.toJsonFields.lookup "weather" =
      (d.weather).map fun l => JsonVal.arr (l.map WeatherItem.toJson) := by
  simp only [WeatherJson.toJsonFields, List.append_assoc]
  rw [lookup_optEntry_ne _ _ _ _ (by decide), lookup_optEntry_ne _ _ _ _ (by decide)]
  cases d.weather with
  | none =>
      rw [show optEntry "weather"
          (Option.map (fun l => JsonVal.arr (List.map WeatherItem.toJson l)) none) = []
          from rfl, List.nil_append,
        lookup_optEntry_ne _ _ _ _ (by decide)]
      cases d.name <;> rfl
  | some l => rfl

lemma tj_lookup_clouds (d : WeatherJson) :
    d.toJsonFields.lookup "clouds" = d.clouds.map CloudsObj.toJson := by
  simp only [WeatherJson.toJsonFields, List.append_assoc]
  rw [lookup_optEntry_ne _ _ _ _ (by decide), lookup_optEntry_ne _ _ _ _ (by decide),
    lookup_optEntry_ne _ _ _ _ (by decide)]
  cases d.clouds with
  | none =>
      rw [show optEntry "clouds" (Option.map CloudsObj.toJson none) = [] from rfl,
        List.nil_append]
      cases d.name <;> rfl
  | some c => rfl

lemma tj_lookup_name (d : WeatherJson) :
    d.toJsonFields.lookup "name" = d.name.map JsonVal.str := by
  simp only [WeatherJson.toJsonFields, List.append_assoc]
  rw [lookup_optEntry_ne _ _ _ _ (by decide), lookup_optEntry_ne _ _ _ _ (by decide),
    lookup_optEntry_ne _ _ _ _ (by decide), lookup_optEntry_ne _ _ _ _ (by decide)]
  cases d.name with
  | none => rfl
  | some s => rfl

lemma weatherRaises_toJson (d : WeatherJson) :
    weatherRaises d.toJson = (weatherItems d.weather).isEmpty := by
  have hm : nonObjPresent d.toJsonFields "main" = false := by
    simp only [nonObjPresent, tj_lookup_main]
    cases d.main <;> simp [isObj, MainObj.toJson]
  have hw : nonObjPresent d.toJsonFields "wind" = false := by
    simp only [nonObjPresent, tj_lookup_wind]
    cases d.wind <;> simp [isObj, WindObj.toJson]
  have hc : nonObjPresent d.toJsonFields "clouds" = false := by
    simp only [nonObjPresent, tj_lookup_clouds]
    cases d.clouds <;> simp [isObj, CloudsObj.toJson]
  have hwb : weatherChainBad d.toJsonFields = (weatherItems d.weather).isEmpty := by
    simp only [weatherChainBad, tj_lookup_weather]
    cases d.weather with
    | none => simp [weatherItems]
    | some l => cases l <;> simp [weatherItems, isObj, WeatherItem.toJson]
  simp [weatherRaises, WeatherJson.toJson, hm, hw, hc, hwb]

lemma parse_weather_json_toJson (d : WeatherJson) (coords : LocationCoords)
    (now : String) :
    parse_weather_json (some d.toJson) coords now =
      (parse_weather_response_to_dataframe (some d) coords now).map
        weatherRecordToJson := by
  have h_temp : jsonToNumeric (chainVal d.toJson "main" "temp") =
      (d.main.getD emptyMain).temp := by
    simp only [chainVal, jLookup, WeatherJson.toJson, tj_lookup_main]
    cases d.main <;>
      simp [MainObj.toJson, emptyMain, List.lookup, jsonToNumeric_optNum, jsonToNumeric_null]
  have h_feels : jsonToNumeric (chainVal d.toJson "main" "feels_like") =
      (d.main.getD emptyMain).feels_like := by
    simp only [chainVal, jLookup, WeatherJson.toJson, tj_lookup_main]
    cases d.main <;>
      simp [MainObj.toJson, emptyMain, List.lookup, jsonToNumeric_optNum, jsonToNumeric_null]
  have h_pres : jsonToNumeric (chainVal d.toJson "main" "pressure") =
      (d.main.getD emptyMain).pressure := by
    simp only [chainVal, jLookup, WeatherJson.toJson, tj_lookup_main]
    cases d.main <;>
      simp [MainObj.toJson, emptyMain, List.lookup, jsonToNumeric_optNum, jsonToNumeric_null]
  have h_hum : jsonToNumeric (chainVal d.toJson "main" "humidity") =
      (d.main.getD emptyMain).humidity := by
    simp only [chainVal, jLookup, WeatherJson.toJson, tj_lookup_main]
    cases d.main <;>
      simp [MainObj.toJson, emptyMain, List.lookup, jsonToNumeric_optNum, jsonToNumeric_null]
  have h_wsp : jsonToNumeric (chainVal d.toJson "wind" "speed") =
      (d.wind.getD emptyWind).speed := by
    simp only [chainVal, jLookup, WeatherJson.toJson, tj_lookup_wind]
    cases d.wind <;>
      simp [WindObj.toJson, emptyWind, List.lookup, jsonToNumeric_optNum, jsonToNumeric_null]
  have h_wdg : jsonToNumeric (chainVal d.toJson "wind" "deg") =
      (d.wind.getD emptyWind).deg := by
    simp only [chainVal, jLookup, WeatherJson.toJson, tj_lookup_wind]
    cases d.wind <;>
      simp [WindObj.toJson, emptyWind, List.lookup, jsonToNumeric_optNum, jsonToNumeric_null]
  have h_cl : jsonToNumeric (chainVal d.toJson "clouds" "all") =
      (d.clouds.getD emptyClouds).all := by
    simp only [chainVal, jLookup, WeatherJson.toJson, tj_lookup_clouds]
    cases d.clouds <;>
      simp [CloudsObj.toJson, emptyClouds, List.lookup, jsonToNumeric_optNum, jsonToNumeric_null]
  have h_name : (jLookup d.toJson "name").getD .null = optStr d.name := by
    simp only [jLookup, WeatherJson.toJson, tj_lookup_name]
    cases d.name <;> simp [optStr]
  simp only [parse_weather_json, weatherBody_eq, weatherRaises_toJson,
    parse_weather_response_to_dataframe]
  cases hw : d.weather with
  | none =>
      have hiv : itemVal d.toJson = .obj [] := by
        simp [itemVal, jLookup, WeatherJson.toJson, tj_lookup_weather, hw]
      simp [weatherItems, hw, mkWeatherRecordJson, weatherRecordToJson,
        h_temp, h_feels, h_pres, h_hum, h_wsp, h_wdg, h_cl, h_name, hiv,
        itemGetVal, emptyWeatherItem, List.lookup, optStr]
  | some l =>
      cases l with
      | nil => simp [weatherItems, hw]
      | cons w ws =>
          have hiv : itemVal d.toJson = WeatherItem.toJson w := by
            simp [itemVal, jLookup, WeatherJson.toJson, tj_lookup_weather, hw]
          simp [weatherItems, hw, mkWeatherRecordJson, weatherRecordToJson,
            h_temp, h_feels, h_pres, h_hum, h_wsp, h_wdg, h_cl, h_name, hiv,
            itemGetVal, WeatherItem.toJson, List.lookup, optStr]

def docC2 : TrafficXml :=
  { frc := none, currentSpeed := some "30", freeFlowSpeed := none,
    currentTravelTime := none, freeFlowTravelTime := none, confidence := none,
    roadClosure := some "false", hasCoordinates := true,
    coordEntries := [{ latitude := some "abc", longitude := some "106.7" }] }

/-- C2: counterexample — `docC2` is a well-formed document (the parser
receives a parsed tree) whose only defect is one unparseable coordinate
latitude, a per-field issue; yet the traffic parser discards the whole record
and returns the empty result the claim reserves for document-level failure. -/
theorem C2_counterexample :
    parse_traffic_response_to_dataframe (some docC2) = [] := by decide

/-- C2 (amended): per-field issues that are missing tags, keys or fields, or
unparseable scalar text, never raise and never discard the record, and an
unparseable payload always yields the empty result; but the blanket handlers
also turn certain per-field errors into the empty result, exactly these: the
traffic parser returns the empty result for a well-formed document exactly
when some coordinate entry carries nonempty text that `float` rejects, and
the weather parser returns the empty result for a decoded document exactly
when the top level is not an object, one of `main`, `wind` or `clouds` is
present with a non-object value, or the `weather` value is present and is
not a nonempty array whose first element is an object (`weatherRaises`).  On
well-typed payloads the weather parser agrees with its structured view, so
an empty result indicates a document-level failure or one of the enumerated
per-field error paths, and nothing else. -/
theorem C2_empty_result_characterisation :
    (parse_traffic_response_to_dataframe none = []) ∧
    (∀ d : TrafficXml,
      (parse_traffic_response_to_dataframe (some d) = [] ↔ docRaises d = true)) ∧
    (∀ coords now, parse_weather_json none coords now = []) ∧
    (∀ (v : JsonVal) coords now,
      (parse_weather_json (some v) coords now = [] ↔ weatherRaises v = true)) ∧
    (∀ (d : WeatherJson) coords now,
      parse_weather_json (some d.toJson) coords now =
        (parse_weather_response_to_dataframe (some d) coords now).map
          weatherRecordToJson) := by
  refine ⟨rfl, ?_, fun _ _ => rfl, ?_,
    fun d coords now => parse_weather_json_toJson d coords now⟩
  · intro d
    rw [parse_traffic_spec]
    by_cases h : docRaises d = true <;> simp [h]
  · intro v coords now
    simp only [parse_weather_json, weatherBody_eq]
    by_cases h : weatherRaises v = true <;> simp [h]

/-- Witness for C2 at the payload whose `main` key holds null: the record
construction raises `AttributeError` and the parser yields the empty result. -/
theorem C2_witness :
    parse_weather_json (some (.obj [("main", JsonVal.null)])) ⟨none, none⟩ "t0" = [] :=
  (C2_empty_result_characterisation.2.2.2.1
    (.obj [("main", JsonVal.null)]) ⟨none, none⟩ "t0").mpr rfl

/-! ## C3 — the averages mapping -/

/-- Boolean string-ending test used to state the unit-suffix property. -/
def strEndsWith (s t : String) : Bool :=
  s.toList.reverse.take t.toList.length == t.toList.reverse

def dfC3 : DataFrame := ⟨["freeFlowSpeed"], [[("freeFlowSpeed", some 50)]]⟩

/-- C3: counterexample — on a combined table without a `currentSpeed` column
the averages mapping holds an explicitly null entry under the bare key
`average_currentSpeed`, which carries none of the three unit markers
(`_kmph`, `_seconds_per_segment`, `_unitless`); so not every key of the
mapping encodes the metric's unit. -/
theorem C3_counterexample :
    (computeAverages dfC3).lookup "average_currentSpeed" = some none ∧
    (computeAverages dfC3).lookup "average_currentSpeed_kmph" = none ∧
    strEndsWith "average_currentSpeed" "_kmph" = false ∧
    strEndsWith "average_currentSpeed" "_seconds_per_segment" = false ∧
    strEndsWith "average_currentSpeed" "_unitless" = false := by decide

/-- C3 (amended): every metric of the fixed five-element set that is present
as a column gets an averages entry under a unit-qualified key whose value is
the arithmetic mean over the metric's non-null values only (null when every
value is null), while a metric entirely absent from the table gets an
explicitly null entry under the bare key `average_<metric>` with no unit
marker; a metric non-null in 2 of 3 rows averages exactly those 2 values. -/
theorem C3_averages (df : DataFrame) :
    computeAverages df =
      numeric_cols_for_avg.map (fun c =>
        if df.cols.contains c then (avgKey c, colMean df c)
        else ("average_" ++ c, none)) ∧
    colMean ⟨["currentSpeed"],
      [[("currentSpeed", some 40)], [("currentSpeed", some 50)], [("currentSpeed", none)]]⟩
      "currentSpeed" = some 45 ∧
    computeAverages ⟨[], []⟩ =
      [("average_currentSpeed", none), ("average_freeFlowSpeed", none),
       ("average_currentTravelTime", none), ("average_freeFlowTravelTime", none),
       ("average_confidence", none)] := by
  refine ⟨?_, ?_, by decide⟩
  · simp only [computeAverages, numeric_cols_for_avg, List.foldl_cons, List.foldl_nil,
      List.map_cons, List.map_nil]
    cases h1 : df.cols.contains "currentSpeed" <;>
    cases h2 : df.cols.contains "freeFlowSpeed" <;>
    cases h3 : df.cols.contains "currentTravelTime" <;>
    cases h4 : df.cols.contains "freeFlowTravelTime" <;>
    cases h5 : df.cols.contains "confidence" <;> rfl
  · show (if ([(40 : ℚ), 50]).isEmpty then none
        else some (([(40 : ℚ), 50]).sum / (([(40 : ℚ), 50]).length : ℚ))) = some 45
    norm_num

/-- Witness for C3 at the empty table. -/
theorem C3_witness :
    computeAverages ⟨[], []⟩ =
      [("average_currentSpeed", none), ("average_freeFlowSpeed", none),
       ("average_currentTravelTime", none), ("average_freeFlowTravelTime", none),
       ("average_confidence", none)] :=
  (C3_averages ⟨[], []⟩).2.2

/-! ## C4 — batch reading, skipping and concatenation -/

def dfOneRowA : DataFrame := ⟨["currentSpeed"], [[("currentSpeed", some 30)]]⟩

def dfOneRowB : DataFrame := ⟨["currentSpeed"], [[("currentSpeed", some 50)]]⟩

/-- C4: a file whose read fails is skipped without aborting; the combined
table's rows are exactly the rows of the readable files concatenated in
(file order, within-file order), so the row count is the sum of the rows
actually read; three one-row files with one unreadable give a 2-row table;
and when zero files are readable the result is the empty table, the empty
averages mapping and a null estimate. -/
theorem C4_batch_reads (files : List (Option DataFrame)) :
    (transform_traffic_data files).1.rows =
      ((files.filterMap id).map DataFrame.rows).flatten ∧
    (transform_traffic_data files).1.rows.length =
      ((files.filterMap id).map (fun d => d.rows.length)).sum ∧
    (files.filterMap id = [] →
      transform_traffic_data files = (⟨[], []⟩, [], none)) ∧
    (transform_traffic_data [some dfOneRowA, none, some dfOneRowB]).1.rows.length = 2 := by
  have hrows : (transform_traffic_data files).1.rows =
      ((files.filterMap id).map DataFrame.rows).flatten := by
    by_cases hf : files.isEmpty = true
    · rw [List.isEmpty_iff] at hf
      subst hf
      rfl
    · by_cases hd : (files.filterMap id).isEmpty = true
      · rw [List.isEmpty_iff] at hd
        simp [transform_traffic_data, hf, hd]
      · simp [transform_traffic_data, hf, hd, concatDFs]
  refine ⟨hrows, ?_, ?_, by decide⟩
  · rw [hrows, flatten_rows_length]
  · intro h
    by_cases hf : files.isEmpty = true
    · rw [List.isEmpty_iff] at hf
      subst hf
      rfl
    · simp [transform_traffic_data, hf, h]

/-- Witness for C4: no file readable gives the empty triple. -/
theorem C4_witness :
    transform_traffic_data [none, none] = (⟨[], []⟩, [], none) :=
  (C4_batch_reads [none, none]).2.2.1 rfl

/-! ## C5 — effect of one missing scalar tag -/

def docC5 : TrafficXml :=
  { frc := some "FRC0", currentSpeed := some "30", freeFlowSpeed := some "40",
    currentTravelTime := some "120", freeFlowTravelTime := some "90",
    confidence := some "0.95", roadClosure := none, hasCoordinates := true,
    coordEntries := [{ latitude := some "10.5", longitude := some "106.7" }] }

/-- C5: counterexample — `docC5` misses exactly the scalar tag `roadClosure`,
yet the parsed record's `roadClosure` field is the boolean `false`
(the coercion evaluates `str(None).lower() == 'true'`), not null as the
claim states for every missing scalar tag. -/
theorem C5_counterexample :
    docC5.roadClosure = none ∧
    (parse_traffic_response_to_dataframe (some docC5)).map
      (fun r => r.field ScalarTag.roadClosure) = [FieldVal.boolv false] := by decide

/-- C5 (amended): for every document on the non-raising path, removing one
scalar tag leaves a single parsed record whose corresponding field takes the
absent-tag value — null for `frc` and the five numeric tags, but `false` for
`roadClosure` — while every other scalar field and the coordinate data equal
what they are when the tag is present with the same remaining content. -/
theorem C5_missing_tag_effect (d : TrafficXml) (t : ScalarTag)
    (h : docRaises d = false) :
    parse_traffic_response_to_dataframe (some d) = [mkTrafficRecord d] ∧
    parse_traffic_response_to_dataframe (some (d.setTag t none)) =
      [mkTrafficRecord (d.setTag t none)] ∧
    (mkTrafficRecord (d.setTag t none)).field t = missingFieldValue t ∧
    (∀ u : ScalarTag, u ≠ t →
      (mkTrafficRecord (d.setTag t none)).field u = (mkTrafficRecord d).field u) ∧
    (mkTrafficRecord (d.setTag t none)).coordinates = (mkTrafficRecord d).coordinates ∧
    (mkTrafficRecord (d.setTag t none)).coordinate_count =
      (mkTrafficRecord d).coordinate_count := by
  have h2 : docRaises (d.setTag t none) = false := by
    rw [setTag_docRaises]
    exact h
  refine ⟨by simp [parse_traffic_spec, h], by simp [parse_traffic_spec, h2], ?_, ?_, ?_, ?_⟩
  · cases t <;> rfl
  · intro u hu
    cases t <;> cases u <;> first | exact absurd rfl hu | rfl
  · cases t <;> rfl
  · cases t <;> rfl

/-- Witness for C5 at `docC5` and the `currentSpeed` tag. -/
theorem C5_witness :
    parse_traffic_response_to_dataframe (some (docC5.setTag ScalarTag.currentSpeed none)) =
      [mkTrafficRecord (docC5.setTag ScalarTag.currentSpeed none)] ∧
    (mkTrafficRecord (docC5.setTag ScalarTag.currentSpeed none)).field
        ScalarTag.currentSpeed = missingFieldValue ScalarTag.currentSpeed :=
  ⟨(C5_missing_tag_effect docC5 ScalarTag.currentSpeed (by decide)).2.1,
   (C5_missing_tag_effect docC5 ScalarTag.currentSpeed (by decide)).2.2.1⟩

/-! ## C6 — the coordinate-count invariant and entry dropping -/

/-- C6: every record returned by the traffic parser satisfies
`coordinate_count = length coordinates`; a document whose N coordinate
entries all carry both values parses to a record with count N; and an entry
lacking a latitude or a longitude value is silently dropped — the parse
result is the same as if the entry were not in the document at all, so the
rest of the record stays valid. -/
theorem C6_coordinate_invariant (d : TrafficXml) :
    (∀ r ∈ parse_traffic_response_to_dataframe (some d),
      r.coordinate_count = r.coordinates.length) ∧
    (d.hasCoordinates = true → d.coordEntries.all goodEntry = true →
      (parse_traffic_response_to_dataframe (some d)).map TrafficRecord.coordinate_count =
        [d.coordEntries.length]) ∧
    (∀ pre e post, d.hasCoordinates = true → d.coordEntries = pre ++ e :: post →
      docRaises d = false →
      (coordField e.latitude = Except.ok none ∨ coordField e.longitude = Except.ok none) →
      parse_traffic_response_to_dataframe (some d) =
        parse_traffic_response_to_dataframe
          (some { d with coordEntries := pre ++ post })) := by
  refine ⟨?_, ?_, ?_⟩
  · intro r hr
    rw [parse_traffic_spec] at hr
    by_cases h : docRaises d = true
    · rw [h] at hr
      simp at hr
    · rw [Bool.not_eq_true] at h
      rw [h] at hr
      simp at hr
      subst hr
      rfl
  · intro hc hall
    have hr : docRaises d = false := by
      simp only [docRaises, effEntries, hc, if_true]
      exact not_raises_of_all_good _ hall
    rw [parse_traffic_spec, hr]
    simp only [if_false, List.map_cons, List.map_nil, Bool.false_eq_true]
    rw [show (mkTrafficRecord d).coordinate_count =
        (keptCoords (effEntries d)).length from rfl]
    simp only [effEntries, hc, if_true]
    rw [keptCoords_length_of_good _ hall]
  · intro pre e post hc hentries hr hlack
    have heff : effEntries d = pre ++ e :: post := by
      simp only [effEntries, hc, if_true]
      exact hentries
    have hr2 : docRaises { d with coordEntries := pre ++ post } = false := by
      rw [docRaises] at hr ⊢
      rw [heff] at hr
      simp only [effEntries, hc, if_true] at hr ⊢
      simp only [List.any_append, List.any_cons, Bool.or_eq_false_iff] at hr ⊢
      exact ⟨hr.1, hr.2.2⟩
    have hk : keptCoords (pre ++ e :: post) = keptCoords (pre ++ post) := by
      simp [keptCoords, List.filterMap_append, List.filterMap_cons,
        keptOfEntry_none_of_lacking e hlack]
    rw [parse_traffic_spec, parse_traffic_spec, hr, hr2]
    simp only [if_false, Bool.false_eq_true]
    rw [mkTrafficRecord, mkTrafficRecord]
    simp only [heff]
    simp only [effEntries, hc, if_true]
    rw [hk]

def entryGoodA : CoordEntry := { latitude := some "10.1", longitude := some "106.1" }

def entryGoodB : CoordEntry := { latitude := some "10.3", longitude := some "106.3" }

def entryLacking : CoordEntry := { latitude := some "10.2", longitude := none }

def docC6 : TrafficXml :=
  { frc := none, currentSpeed := none, freeFlowSpeed := none, currentTravelTime := none,
    freeFlowTravelTime := none, confidence := none, roadClosure := none,
    hasCoordinates := true, coordEntries := [entryGoodA, entryLacking, entryGoodB] }

/-- Witness for C6: dropping the entry that lacks a longitude leaves the
parse unchanged. -/
theorem C6_witness :
    parse_traffic_response_to_dataframe (some docC6) =
      parse_traffic_response_to_dataframe
        (some { docC6 with coordEntries := [entryGoodA, entryGoodB] }) :=
  (C6_coordinate_invariant docC6).2.2 [entryGoodA] entryLacking [entryGoodB]
    rfl rfl (by decide) (Or.inr rfl)

/-! ## C7 — the weather record's provenance -/

/-- C7: every record the weather parser returns takes its latitude and
longitude from the input request coordinates and its timestamp from the
clock value observed at the moment of parsing, irrespective of the response
body; and each remaining field is pulled from its nested path with a
default-on-missing lookup, so a missing nested object or field yields null
for exactly that field and no other. -/
theorem C7_weather_fields (d : WeatherJson) (coords : LocationCoords) (now : String)
    (r : WeatherRecord)
    (hr : r ∈ parse_weather_response_to_dataframe (some d) coords now) :
    r.latitude = coords.lat ∧ r.longitude = coords.lon ∧ r.timestamp_utc = now ∧
    r.temperature_celsius = (d.main.getD emptyMain).temp ∧
    r.feels_like_celsius = (d.main.getD emptyMain).feels_like ∧
    r.pressure_hpa = (d.main.getD emptyMain).pressure ∧
    r.humidity_percent = (d.main.getD emptyMain).humidity ∧
    r.wind_speed_mps = (d.wind.getD emptyWind).speed ∧
    r.wind_deg = (d.wind.getD emptyWind).deg ∧
    r.weather_description = ((weatherItems d.weather).headD emptyWeatherItem).description ∧
    r.weather_icon = ((weatherItems d.weather).headD emptyWeatherItem).icon ∧
    r.cloudiness_percent = (d.clouds.getD emptyClouds).all ∧
    r.city_name = d.name := by
  simp only [parse_weather_response_to_dataframe] at hr
  cases hw : weatherItems d.weather with
  | nil =>
      rw [hw] at hr
      simp at hr
  | cons w₀ ws =>
      rw [hw] at hr
      simp at hr
      subst hr
      exact ⟨rfl, rfl, rfl, rfl, rfl, rfl, rfl, rfl, rfl, rfl, rfl, rfl, rfl⟩

def jsonC7 : WeatherJson :=
  { main := none, wind := none, weather := none, clouds := none, name := some "Saigon" }

def coordsC7 : LocationCoords := ⟨none, none⟩

def recC7 : WeatherRecord :=
  { latitude := none, longitude := none, timestamp_utc := "t0",
    temperature_celsius := none, feels_like_celsius := none, pressure_hpa := none,
    humidity_percent := none, wind_speed_mps := none, wind_deg := none,
    weather_description := none, weather_icon := none, cloudiness_percent := none,
    city_name := some "Saigon" }

/-- Witness for C7 at a concrete payload with a missing `main` object. -/
theorem C7_witness :
    recC7.latitude = coordsC7.lat ∧ recC7.timestamp_utc = "t0" ∧
    recC7.temperature_celsius = (jsonC7.main.getD emptyMain).temp := by
  have h := C7_weather_fields jsonC7 coordsC7 "t0" recC7 (by decide)
  exact ⟨h.1, h.2.2.1, h.2.2.2.1⟩

/-! ## C8 — full-refresh load semantics -/

/-- C8: loading an empty table is a no-op — the store (and in particular any
prior table of the same name) is returned unchanged and nothing is created;
loading a non-empty table creates the destination table if absent or fully
replaces its contents if present; and after loading two non-empty tables
under the same name the stored table is the second one, so the final row
count is the second load's row count, not the sum. -/
theorem C8_loader_semantics (df prior : DataFrame) (n : String) (ok : Bool)
    (store : Store) :
    (dfEmpty df = true →
      load_transformed_data_to_duckdb df n ok store = ⟨store, false, 0⟩) ∧
    (dfEmpty df = false →
      (load_transformed_data_to_duckdb df n true store).store.lookup n = some df) ∧
    (dfEmpty df = false → dfEmpty prior = false →
      (((load_transformed_data_to_duckdb df n true
          (load_transformed_data_to_duckdb prior n true store).store).store.lookup n).map
        (fun t => t.rows.length)) = some df.rows.length) := by
  refine ⟨fun h => by simp [load_transformed_data_to_duckdb, h],
          fun h => by simp [load_transformed_data_to_duckdb, h, lookup_storeSet],
          fun h hp => by simp [load_transformed_data_to_duckdb, h, hp, lookup_storeSet]⟩

def dfW : DataFrame := ⟨["currentSpeed"], [[("currentSpeed", some 30)]]⟩

def dfW2 : DataFrame :=
  ⟨["currentSpeed"], [[("currentSpeed", some 50)], [("currentSpeed", some 60)]]⟩

/-- Witness for C8: a one-row load followed by a two-row load under the same
name leaves a table of exactly two rows. -/
theorem C8_witness :
    (((load_transformed_data_to_duckdb dfW2 "traffic_data" true
        (load_transformed_data_to_duckdb dfW "traffic_data" true []).store).store.lookup
        "traffic_data").map (fun t => t.rows.length)) = some 2 :=
  (C8_loader_semantics dfW2 dfW "traffic_data" true []).2.2 (by decide) (by decide)

/-! ## C9 — what happens on a store-write failure -/

/-- C9: counterexample — with a non-empty table and a failing store write,
the loader returns normally: no exception reaches its caller, so the failure
is neither reported to the caller nor surfaced to the orchestrator. -/
theorem C9_counterexample :
    dfEmpty dfW = false ∧
    (load_transformed_data_to_duckdb dfW "traffic_data" false []).raised = false := by
  decide

/-- C9 (amended): the loader never retries (it makes at most one write
attempt) and it never raises: a store-write failure is caught by its blanket
handler, only logged, and the function returns normally with the store
unchanged, so the failure is not surfaced to the orchestrator and the load
phase ends silently. -/
theorem C9_failure_contained (df : DataFrame) (n : String) (ok : Bool)
    (store : Store) :
    (load_transformed_data_to_duckdb df n ok store).raised = false ∧
    (load_transformed_data_to_duckdb df n ok store).writeAttempts ≤ 1 ∧
    (ok = false → (load_transformed_data_to_duckdb df n ok store).store = store) := by
  unfold load_transformed_data_to_duckdb
  split_ifs <;> simp_all

/-- Witness for C9: the failing write leaves the empty store untouched. -/
theorem C9_witness :
    (load_transformed_data_to_duckdb dfW2 "traffic_data" false []).store = [] :=
  (C9_failure_contained dfW2 "traffic_data" false []).2.2 rfl

/-! ## C10 — one record per well-formed document -/

def docC10 : TrafficXml :=
  { frc := none, currentSpeed := none, freeFlowSpeed := none, currentTravelTime := none,
    freeFlowTravelTime := none, confidence := none, roadClosure := none,
    hasCoordinates := true,
    coordEntries := [{ latitude := some "10.5", longitude := some "xyz" }] }

/-- C10: counterexample — `docC10` is a well-formed document, yet the parser
returns zero records, because its single coordinate entry carries longitude
text that fails float coercion and the resulting error is caught by the
blanket handler. -/
theorem C10_counterexample :
    parse_traffic_response_to_dataframe (some docC10) = [] := by decide

def emptyTrafficXml : TrafficXml :=
  { frc := none, currentSpeed := none, freeFlowSpeed := none, currentTravelTime := none,
    freeFlowTravelTime := none, confidence := none, roadClosure := none,
    hasCoordinates := false, coordEntries := [] }

/-- C10 (amended): every well-formed document whose coordinate entries carry
no unparseable numeric text yields exactly one record; a well-formed document
containing none of the expected tags yields a record with `frc` and the five
numeric fields null, `roadClosure` false (not null), an empty coordinates
sequence and `coordinate_count` zero. -/
theorem C10_one_record (d : TrafficXml) (h : docRaises d = false) :
    (parse_traffic_response_to_dataframe (some d)).length = 1 ∧
    parse_traffic_response_to_dataframe (some emptyTrafficXml) =
      [{ frc := none, currentSpeed := none, freeFlowSpeed := none,
         currentTravelTime := none, freeFlowTravelTime := none, confidence := none,
         roadClosure := false, coordinate_count := 0, coordinates := [] }] := by
  refine ⟨?_, by decide⟩
  simp [parse_traffic_spec, h]

/-- Witness for C10 at the document with none of the expected tags. -/
theorem C10_witness :
    (parse_traffic_response_to_dataframe (some emptyTrafficXml)).length = 1 :=
  (C10_one_record emptyTrafficXml (by decide)).1

end TrafficDuck
